import Mathlib

/-!
Shallow embedding of the FlashPort dice-bingo contract
(`src/blitz-bingo/src/contract.rs` together with the ABI types in
`src/flashport/src/lib.rs` and the state in `src/flashport/src/state.rs`).

Machine integers are modelled as `Nat` with explicit reduction `% 2^64`
where the Rust code relies on `u64` wrapping semantics, and with explicit
saturation at `2^128 - 1` where the Rust code uses `Amount`/`u128`
saturating arithmetic.  The host runtime inputs (block height, system
time) are gathered in an `Env` record passed to each operation.
-/

namespace Flashport

/-- `2^64`, the modulus for `u64` wrapping arithmetic. -/
def U64MOD : Nat := 2 ^ 64

/-- `2^128`, the modulus for `u128` wrapping arithmetic. -/
def U128MOD : Nat := 2 ^ 128

/-- Largest `u128` value, the clamp for `Amount` saturating arithmetic. -/
def U128MAX : Nat := 2 ^ 128 - 1

/-- `u64::wrapping_mul`. -/
def wmul (a b : Nat) : Nat := a * b % U64MOD

/-- `u64::wrapping_add`. -/
def wadd (a b : Nat) : Nat := (a + b) % U64MOD

/-- `Amount::saturating_add` (`u128` saturating addition). -/
def satAdd (a b : Nat) : Nat := min (a + b) U128MAX

/-- `Amount::saturating_sub` (`u128` saturating subtraction; `Nat`
subtraction already floors at zero). -/
def satSub (a b : Nat) : Nat := a - b

/-- `u128::saturating_mul`. -/
def satMul (a b : Nat) : Nat := min (a * b) U128MAX

-- === Configuration constants (src/flashport/src/lib.rs) ===

/-- Minimum bet amount (1 LINERA in atto). -/
def MIN_BET : Nat := 1000000000000000000

/-- Maximum bet amount (100 LINERA in atto). -/
def MAX_BET : Nat := 100000000000000000000

/-- Cost per roll (0.05 LINERA in atto). -/
def ROLL_COST : Nat := 50000000000000000

-- === Data model (src/flashport/src/lib.rs, src/flashport/src/state.rs) ===

/-- Types of bingo wins (`BingoType` in lib.rs). -/
inductive BingoType where
  | Row0 | Row1 | Row2 | Row3 | Row4
  | Col0 | Col1 | Col2 | Col3 | Col4
  | DiagonalMain
  | DiagonalAnti
  | FullCard
deriving DecidableEq, Repr

/-- A 5x5 bingo card (`BingoCard` in lib.rs).  The Rust `String` fields
`bet_amount_atto` and `total_roll_fees_atto` always hold decimal renderings
of `u128` values produced by the contract itself, so they are modelled as
`Nat`. -/
structure BingoCard where
  id : Nat
  numbers : List Nat
  marked : List Bool
  rolls_count : Nat
  bet_amount_atto : Nat
  total_roll_fees_atto : Nat
  prize_claimed : Bool
deriving DecidableEq, Repr

/-- Game session (`GameSession` in lib.rs). -/
structure GameSession where
  session_id : Nat
  created_at_micros : Nat
  expires_at_micros : Nat
  operations_count : Nat
deriving DecidableEq, Repr

/-- Record of a single dice roll (`RollRecord` in lib.rs). -/
structure RollRecord where
  dice : List Nat
  sum : Nat
  matched : Bool
  timestamp_micros : Nat
  fee_paid_atto : Nat
  is_lucky : Bool
deriving DecidableEq, Repr

/-- The persistent application state (`FlashportState` in state.rs). -/
structure FlashportState where
  active_session : Option GameSession
  session_counter : Nat
  current_card : Option BingoCard
  game_counter : Nat
  drawn_numbers : List Nat
  has_unclaimed_prize : Bool
  player_balance : Nat
  total_deposited : Nat
  total_won : Nat
  total_spent : Nat
  current_prize_pool : Nat
  total_games : Nat
  total_wins : Nat
  roll_history : List RollRecord
deriving DecidableEq, Repr

/-- Host-supplied inputs read through `ContractRuntime`: the block height
and the system time in microseconds. -/
structure Env where
  block_height : Nat
  timestamp_micros : Nat
deriving DecidableEq, Repr

/-- Error classes, one per distinct error message produced in contract.rs. -/
inductive ErrKind where
  | noActiveSession
  | sessionExpired
  | zeroDeposit
  | insufficientBalance
  | betTooLow
  | betTooHigh
  | noActiveGame
  | gameAlreadyComplete
  | bingoPendingClaim
  | noUnclaimedPrize
  | noGameData
  | prizeAlreadyClaimed
  | invalidStoredBet
deriving DecidableEq, Repr

/-- `OperationResponse` from lib.rs.  Monetary display strings are kept as
the `Nat` values they render. -/
inductive OperationResponse where
  | SessionStarted (session_id expires_at_micros : Nat)
  | SessionEnded
  | GameStarted (game_id : Nat) (card : BingoCard) (entry_fee_paid prize_pool : Nat)
  | RollResult (dice : List Nat) (sum : Nat) (matched : Bool)
      (match_row match_col : Option Nat) (bingo_type : Option BingoType)
      (game_over : Bool) (rolls_count : Nat) (roll_fee_paid : Nat)
      (total_roll_fees : Nat) (is_lucky : Bool)
  | PrizeClaimed (bet_amount rolls_count : Nat) (multiplier_display : String)
      (payout_amount new_balance : Nat)
  | DepositReceived (amount new_balance : Nat)
  | WithdrawalProcessed (amount remaining_balance : Nat)
  | Error (kind : ErrKind)
deriving DecidableEq, Repr

/-- `Operation` from lib.rs. -/
inductive Operation where
  | StartSession (expires_in_secs : Nat)
  | EndSession
  | NewGame (bet_amount_atto : Nat)
  | RollAndMatch
  | ClaimPrize
  | Deposit (amount_atto : Nat)
  | Withdraw (amount : Nat)
deriving DecidableEq, Repr

-- === Session management (contract.rs lines 105-157) ===

/-- `start_session`. -/
def start_session (env : Env) (s : FlashportState) (expires_in_secs : Nat) :
    OperationResponse × FlashportState :=
  let session_id := s.session_counter + 1
  let expires_at_micros := env.timestamp_micros + expires_in_secs * 1000000
  let session : GameSession :=
    { session_id := session_id
      created_at_micros := env.timestamp_micros
      expires_at_micros := expires_at_micros
      operations_count := 0 }
  (.SessionStarted session_id expires_at_micros,
    { s with active_session := some session, session_counter := session_id })

/-- `end_session`. -/
def end_session (s : FlashportState) : OperationResponse × FlashportState :=
  (.SessionEnded,
    { s with active_session := none, current_card := none,
             drawn_numbers := [], has_unclaimed_prize := false,
             roll_history := [] })

/-- `validate_session`. -/
def validate_session (env : Env) (s : FlashportState) : Except ErrKind Unit :=
  match s.active_session with
  | none => .error .noActiveSession
  | some session =>
      if env.timestamp_micros ≥ session.expires_at_micros then
        .error .sessionExpired
      else
        .ok ()

-- === Token operations (contract.rs lines 163-236) ===

/-- `handle_deposit`. -/
def handle_deposit (s : FlashportState) (amount_atto : Nat) :
    OperationResponse × FlashportState :=
  if amount_atto = 0 then
    (.Error .zeroDeposit, s)
  else
    let new_balance := satAdd s.player_balance amount_atto
    (.DepositReceived amount_atto new_balance,
      { s with player_balance := new_balance,
               total_deposited := satAdd s.total_deposited amount_atto })

/-- `handle_withdraw`. -/
def handle_withdraw (s : FlashportState) (amount : Nat) :
    OperationResponse × FlashportState :=
  if amount > s.player_balance then
    (.Error .insufficientBalance, s)
  else
    let remaining := satSub s.player_balance amount
    (.WithdrawalProcessed amount remaining,
      { s with player_balance := remaining })

/-- `charge_fee`.  On failure nothing is mutated (the Rust method returns
`Err` before touching state); on success it debits `player_balance` and
credits `total_spent`. -/
def charge_fee (s : FlashportState) (fee : Nat) :
    Except ErrKind Unit × FlashportState :=
  if fee > s.player_balance then
    (.error .insufficientBalance, s)
  else
    (.ok (), { s with player_balance := satSub s.player_balance fee,
                      total_spent := satAdd s.total_spent fee })

-- === Randomness (contract.rs lines 541-595) ===

/-- One step of the xorshift64 PRNG used inside `generate_dice_roll`
(`state ^= state<<13; state ^= state>>7; state ^= state<<17` on `u64`). -/
def xorshift64 (s : Nat) : Nat :=
  let s1 := s ^^^ (s <<< 13 % U64MOD)
  let s2 := s1 ^^^ (s1 >>> 7)
  s2 ^^^ (s2 <<< 17 % U64MOD)

/-- The entropy-mixing expression at the top of `generate_dice_roll`. -/
def diceMix (env : Env) (counter total_games nonce : Nat) : Nat :=
  wadd
    (wadd
      (wadd
        (wmul (wadd (wmul env.block_height 0xc6a4a7935bd1e995) env.timestamp_micros)
          0x5851f42d4c957f2d)
        (wmul nonce 0x2545f4914f6cdd1d))
      (wmul counter 0x1b873593))
    (wmul total_games 0xcc9e2d51)

/-- `generate_dice_roll`: four dice drawn from a single evolving
xorshift64 state. -/
def generate_dice_roll (env : Env) (s : FlashportState) (nonce : Nat) : List Nat :=
  let counter := s.game_counter
  let roll_count := s.total_games
  let init := diceMix env counter roll_count nonce
  ((List.range 4).foldl
    (fun (acc : Nat × List Nat) _ =>
      let st := xorshift64 acc.1
      (st, acc.2 ++ [st % 6 + 1]))
    (init, [])).2

/-- `create_seed`: multiply-add mixing followed by the splitmix64-style
finalizer (`seed ^= seed>>33; seed *= C; seed ^= seed>>33`). -/
def create_seed (env : Env) (counter nonce : Nat) : Nat :=
  let seed :=
    wadd
      (wadd (wadd (wmul env.block_height 0xc6a4a7935bd1e995) env.timestamp_micros)
        (wmul nonce 0x5851f42d4c957f2d))
      (wmul counter 0x9e3779b97f4a7c15)
  let seed := seed ^^^ (seed >>> 33)
  let seed := wmul seed 0xff51afd7ed558ccd
  seed ^^^ (seed >>> 33)

/-- `next_random`: the MINSTD-style LCG step
(`state.wrapping_mul(48271).wrapping_add(1) % 2147483647`). -/
def next_random (state : Nat) : Nat :=
  wadd (wmul state 48271) 1 % 2147483647

-- === Card generation (contract.rs lines 499-539) ===

/-- `Vec::swap` on a list: exchange the entries at indices `i` and `j`. -/
def listSwap (l : List Nat) (i j : Nat) : List Nat :=
  let a := l.getD i 0
  let b := l.getD j 0
  (l.set i b).set j a

/-- The Fisher-Yates loop of `generate_card`: `for i in (1..len).rev()`,
draw `j = next_random(state) % (i+1)` and swap `pool[i]` with `pool[j]`.
`shuffleAux n` performs the iterations for indices `n, n-1, ..., 1`. -/
def shuffleAux : Nat → Nat → List Nat → Nat × List Nat
  | 0, rng, pool => (rng, pool)
  | n + 1, rng, pool =>
      let rng' := next_random rng
      let j := rng' % (n + 2)
      shuffleAux n rng' (listSwap pool (n + 1) j)

/-- The initial pool of card numbers, `(4..=24).collect()`. -/
def initialPool : List Nat := List.range' 4 21

/-- The loop body of the grid-filling loop of `generate_card` for one
cell index: cell 12 is the FREE centre (value 0, pre-marked), every other
cell consumes `pool[pool_idx % pool.len()]`.  The accumulator is
`(numbers, marked, pool_idx)`. -/
def fillStep (pool : List Nat) (acc : List Nat × List Bool × Nat) (i : Nat) :
    List Nat × List Bool × Nat :=
  if i = 12 then
    (acc.1.set 12 0, acc.2.1.set 12 true, acc.2.2)
  else
    (acc.1.set i (pool.getD (acc.2.2 % pool.length) 0), acc.2.1, acc.2.2 + 1)

/-- The grid-filling loop of `generate_card` over all 25 cells. -/
def fillCells (pool : List Nat) : List Nat × List Bool × Nat :=
  (List.range 25).foldl (fillStep pool)
    (List.replicate 25 0, List.replicate 25 false, 0)

/-- `generate_card` with the seed already computed (the body after
`create_seed`). -/
def generateCardFromSeed (game_id seed : Nat) : BingoCard :=
  let pool := (shuffleAux 20 seed initialPool).2
  let filled := fillCells pool
  { id := game_id
    numbers := filled.1
    marked := filled.2.1
    rolls_count := 0
    bet_amount_atto := 0
    total_roll_fees_atto := 0
    prize_claimed := false }

/-- `generate_card`: seed from `create_seed(game_id)` (which reads the
current `game_counter`), then shuffle and fill. -/
def generate_card (env : Env) (s : FlashportState) (game_id : Nat) : BingoCard :=
  generateCardFromSeed game_id (create_seed env s.game_counter game_id)

-- === Marking and bingo detection (contract.rs lines 597-664) ===

/-- The loop body of `mark_number_on_card` for one grid index: if the cell
equals `sum` and is unmarked, mark it, set `matched`, remember the
position and bump the count.  The accumulator is
`(card, matched, last_pos, count)`. -/
def markStep (sum : Nat) (acc : BingoCard × Bool × Option (Nat × Nat) × Nat)
    (idx : Nat) : BingoCard × Bool × Option (Nat × Nat) × Nat :=
  let c := acc.1
  if c.numbers.getD idx 0 = sum ∧ c.marked.getD idx false = false then
    ({ c with marked := c.marked.set idx true }, true,
      some (idx / 5, idx % 5), acc.2.2.2 + 1)
  else acc

/-- `mark_number_on_card`: mark every unmarked cell equal to `sum`,
returning the updated card together with `(matched, last_pos, count)`.
The Rust loop visits `row*5+col` in row-major order, i.e. indices
`0..25`. -/
def mark_number_on_card (card : BingoCard) (sum : Nat) :
    BingoCard × Bool × Option (Nat × Nat) × Nat :=
  (List.range 25).foldl (markStep sum) (card, false, none, 0)

/-- Row `r` fully marked. -/
def rowComplete (marked : List Bool) (r : Nat) : Bool :=
  (List.range 5).all fun c => marked.getD (r * 5 + c) false

/-- Column `c` fully marked. -/
def colComplete (marked : List Bool) (c : Nat) : Bool :=
  (List.range 5).all fun r => marked.getD (r * 5 + c) false

/-- Main diagonal fully marked. -/
def diagMainComplete (marked : List Bool) : Bool :=
  (List.range 5).all fun i => marked.getD (i * 5 + i) false

/-- Anti-diagonal fully marked. -/
def diagAntiComplete (marked : List Bool) : Bool :=
  (List.range 5).all fun i => marked.getD (i * 5 + (4 - i)) false

/-- All 25 cells marked. -/
def fullComplete (marked : List Bool) : Bool :=
  (List.range 25).all fun i => marked.getD i false

/-- `check_bingo_on_card`: rows 0-4, then columns 0-4, then the main
diagonal, the anti-diagonal, and finally the full card; the first
complete pattern wins (the Rust `for` loops with early `return` are
unrolled). -/
def check_bingo_on_card (card : BingoCard) : Option BingoType :=
  if rowComplete card.marked 0 then some .Row0
  else if rowComplete card.marked 1 then some .Row1
  else if rowComplete card.marked 2 then some .Row2
  else if rowComplete card.marked 3 then some .Row3
  else if rowComplete card.marked 4 then some .Row4
  else if colComplete card.marked 0 then some .Col0
  else if colComplete card.marked 1 then some .Col1
  else if colComplete card.marked 2 then some .Col2
  else if colComplete card.marked 3 then some .Col3
  else if colComplete card.marked 4 then some .Col4
  else if diagMainComplete card.marked then some .DiagonalMain
  else if diagAntiComplete card.marked then some .DiagonalAnti
  else if fullComplete card.marked then some .FullCard
  else none

-- === Payout (contract.rs lines 479-492) ===

/-- `get_multiplier`: `(numerator, denominator, display)` by roll count. -/
def get_multiplier (rolls : Nat) : Nat × Nat × String :=
  if rolls ≤ 9 then (10, 1, "10x")
  else if rolls ≤ 14 then (5, 1, "5x")
  else if rolls ≤ 19 then (3, 1, "3x")
  else if rolls ≤ 24 then (2, 1, "2x")
  else if rolls ≤ 34 then (12, 10, "1.2x")
  else if rolls ≤ 44 then (8, 10, "0.8x")
  else (2, 10, "0.2x")

-- === History log helper (contract.rs lines 389-392) ===

/-- The `while count > 50 delete_front` eviction loop. -/
def trimHistory (l : List RollRecord) : List RollRecord :=
  if _hgt : l.length > 50 then trimHistory (l.drop 1) else l
termination_by l.length
decreasing_by simp; omega

-- === Game operations (contract.rs lines 242-477) ===

/-- The `if let Some(session) = ... { session.operations_count += 1 }`
block shared by `new_game` and `roll_and_match`. -/
def bumpSession (s : FlashportState) : FlashportState :=
  match s.active_session with
  | some session =>
      let session2 := { session with operations_count := session.operations_count + 1 }
      { s with active_session := some session2 }
  | none => s

/-- The history update of `roll_and_match`: `push_back` the record, then
`while count > 50 { delete_front }`. -/
def histStep (h : List RollRecord) (r : RollRecord) : List RollRecord :=
  trimHistory (h ++ [r])

/-- `new_game`. -/
def new_game (env : Env) (s : FlashportState) (bet_amount_atto : Nat) :
    OperationResponse × FlashportState :=
  if bet_amount_atto < MIN_BET then (.Error .betTooLow, s)
  else if bet_amount_atto > MAX_BET then (.Error .betTooHigh, s)
  else
    match charge_fee s bet_amount_atto with
    | (.error e, s0) => (.Error e, s0)
    | (.ok _, s1) =>
        let game_id := s1.game_counter + 1
        let s2 := { s1 with game_counter := game_id }
        let card0 := generate_card env s2 game_id
        let card := { card0 with bet_amount_atto := bet_amount_atto }
        let s3 := { s2 with
          current_card := some card,
          drawn_numbers := [],
          has_unclaimed_prize := false,
          current_prize_pool := bet_amount_atto,
          total_games := s2.total_games + 1 }
        let s4 := bumpSession s3
        (.GameStarted game_id card bet_amount_atto bet_amount_atto, s4)

/-- `roll_and_match`: the atomic roll-mark-detect transaction. -/
def roll_and_match (env : Env) (s : FlashportState) :
    OperationResponse × FlashportState :=
  match s.current_card with
  | none => (.Error .noActiveGame, s)
  | some card =>
    if card.prize_claimed then (.Error .gameAlreadyComplete, s)
    else if s.has_unclaimed_prize then (.Error .bingoPendingClaim, s)
    else
      match charge_fee s ROLL_COST with
      | (.error e, s0) => (.Error e, s0)
      | (.ok _, s1) =>
          let current_rolls := card.rolls_count
          let dice := generate_dice_roll env s1 current_rolls
          let sum := dice.foldl (· + ·) 0
          let drawn :=
            if s1.drawn_numbers.contains sum then s1.drawn_numbers
            else s1.drawn_numbers ++ [sum]
          let s2 := { s1 with drawn_numbers := drawn }
          let marked := mark_number_on_card card sum
          let updated_card := marked.1
          let matched := marked.2.1
          let match_pos := marked.2.2.1
          let match_count := marked.2.2.2
          let is_lucky := decide (match_count > 1)
          let bingo_type := check_bingo_on_card updated_card
          let game_over := bingo_type.isSome
          let s3 :=
            if game_over then
              { s2 with total_wins := s2.total_wins + 1, has_unclaimed_prize := true }
            else s2
          let card2 := { updated_card with rolls_count := updated_card.rolls_count + 1 }
          let rolls_count := card2.rolls_count
          let new_total_fees := (card2.total_roll_fees_atto + ROLL_COST) % U128MOD
          let card3 := { card2 with total_roll_fees_atto := new_total_fees }
          let s4 := { s3 with current_card := some card3 }
          let s5 := bumpSession s4
          let record : RollRecord :=
            { dice := dice, sum := sum, matched := matched,
              timestamp_micros := env.timestamp_micros,
              fee_paid_atto := ROLL_COST, is_lucky := is_lucky }
          let s6 := { s5 with roll_history := histStep s5.roll_history record }
          (.RollResult dice sum matched (match_pos.map Prod.fst) (match_pos.map Prod.snd)
            bingo_type game_over rolls_count ROLL_COST new_total_fees is_lucky, s6)

/-- `claim_prize`. -/
def claim_prize (s : FlashportState) : OperationResponse × FlashportState :=
  if !s.has_unclaimed_prize then (.Error .noUnclaimedPrize, s)
  else
    match s.current_card with
    | none => (.Error .noGameData, s)
    | some card =>
      if card.prize_claimed then (.Error .prizeAlreadyClaimed, s)
      else
        let bet_amount_atto := card.bet_amount_atto
        if bet_amount_atto = 0 then (.Error .invalidStoredBet, s)
        else
          let m := get_multiplier card.rolls_count
          let payout_atto := satMul bet_amount_atto m.1 / m.2.1
          let new_balance := satAdd s.player_balance payout_atto
          let s1 := { s with
            player_balance := new_balance,
            total_won := satAdd s.total_won payout_atto,
            current_card := some { card with prize_claimed := true },
            has_unclaimed_prize := false,
            current_prize_pool := 0 }
          (.PrizeClaimed bet_amount_atto card.rolls_count m.2.2 payout_atto new_balance, s1)

/-- `execute_operation`: the dispatch loop, with the session gate in front
of `NewGame`, `RollAndMatch` and `ClaimPrize`. -/
def execute_operation (env : Env) (s : FlashportState) (op : Operation) :
    OperationResponse × FlashportState :=
  match op with
  | .StartSession secs => start_session env s secs
  | .EndSession => end_session s
  | .NewGame bet =>
      match validate_session env s with
      | .error e => (.Error e, s)
      | .ok _ => new_game env s bet
  | .RollAndMatch =>
      match validate_session env s with
      | .error e => (.Error e, s)
      | .ok _ => roll_and_match env s
  | .ClaimPrize =>
      match validate_session env s with
      | .error e => (.Error e, s)
      | .ok _ => claim_prize s
  | .Deposit amount => handle_deposit s amount
  | .Withdraw amount => handle_withdraw s amount

-- =========================================================================
-- Spec-side definitions (for refinement comparisons)
-- =========================================================================

/-- The cells of each bingo pattern, as the spec lists them. -/
def patternCells : BingoType → List Nat
  | .Row0 => (List.range 5).map fun c => 0 * 5 + c
  | .Row1 => (List.range 5).map fun c => 1 * 5 + c
  | .Row2 => (List.range 5).map fun c => 2 * 5 + c
  | .Row3 => (List.range 5).map fun c => 3 * 5 + c
  | .Row4 => (List.range 5).map fun c => 4 * 5 + c
  | .Col0 => (List.range 5).map fun r => r * 5 + 0
  | .Col1 => (List.range 5).map fun r => r * 5 + 1
  | .Col2 => (List.range 5).map fun r => r * 5 + 2
  | .Col3 => (List.range 5).map fun r => r * 5 + 3
  | .Col4 => (List.range 5).map fun r => r * 5 + 4
  | .DiagonalMain => (List.range 5).map fun i => i * 5 + i
  | .DiagonalAnti => (List.range 5).map fun i => i * 5 + (4 - i)
  | .FullCard => List.range 25

/-- A pattern is complete when all of its cells are marked. -/
def patternComplete (marked : List Bool) (b : BingoType) : Bool :=
  (patternCells b).all fun i => marked.getD i false

/-- The fixed priority order of the detector, as the spec lists it:
rows 0-4, columns 0-4, main diagonal, anti-diagonal, full card. -/
def priorityOrder : List BingoType :=
  [.Row0, .Row1, .Row2, .Row3, .Row4,
   .Col0, .Col1, .Col2, .Col3, .Col4,
   .DiagonalMain, .DiagonalAnti, .FullCard]

/-- The dice seeding as the C4 claim describes it: the multiply-add mix
followed by a splitmix64-style finalizer
(`seed ^= seed>>33; seed *= C1; seed ^= seed>>33`). -/
def diceMixFinalized (env : Env) (counter total_games nonce : Nat) : Nat :=
  let seed := diceMix env counter total_games nonce
  let seed := seed ^^^ (seed >>> 33)
  let seed := wmul seed 0xff51afd7ed558ccd
  seed ^^^ (seed >>> 33)

/-- Dice generation as the C4 claim describes it: seed with finalizer,
then four xorshift64 draws from one evolving state. -/
def diceSpecClaimed (env : Env) (counter total_games nonce : Nat) : List Nat :=
  let s0 := diceMixFinalized env counter total_games nonce
  let s1 := xorshift64 s0
  let s2 := xorshift64 s1
  let s3 := xorshift64 s2
  let s4 := xorshift64 s3
  [s1 % 6 + 1, s2 % 6 + 1, s3 % 6 + 1, s4 % 6 + 1]

/-- Dice generation as the amended claim describes it: the multiply-add
mix only (no finalizer), then four xorshift64 draws sharing one evolving
state, each die being `state % 6 + 1`. -/
def diceSpecAmended (env : Env) (counter total_games nonce : Nat) : List Nat :=
  let s0 := diceMix env counter total_games nonce
  let s1 := xorshift64 s0
  let s2 := xorshift64 s1
  let s3 := xorshift64 s2
  let s4 := xorshift64 s3
  [s1 % 6 + 1, s2 % 6 + 1, s3 % 6 + 1, s4 % 6 + 1]

-- =========================================================================
-- Sample inputs (used by witnesses and counterexamples)
-- =========================================================================

/-- A sample host environment. -/
def envS : Env := { block_height := 100, timestamp_micros := 1000000000 }

/-- The freshly instantiated state (all counters and balances zero). -/
def stEmpty : FlashportState :=
  { active_session := none, session_counter := 0, current_card := none,
    game_counter := 0, drawn_numbers := [], has_unclaimed_prize := false,
    player_balance := 0, total_deposited := 0, total_won := 0, total_spent := 0,
    current_prize_pool := 0, total_games := 0, total_wins := 0,
    roll_history := [] }

/-- A sample session that is still valid at `envS`'s timestamp. -/
def sessS : GameSession :=
  { session_id := 1, created_at_micros := 0,
    expires_at_micros := 2000000000, operations_count := 0 }

/-- A sample in-progress card. -/
def cardS : BingoCard :=
  { id := 1, numbers := List.replicate 25 7, marked := List.replicate 25 false,
    rolls_count := 0, bet_amount_atto := MIN_BET, total_roll_fees_atto := 0,
    prize_claimed := false }

/-- A sample roll record. -/
def recS : RollRecord :=
  { dice := [1, 2, 3, 4], sum := 10, matched := false,
    timestamp_micros := 5, fee_paid_atto := ROLL_COST, is_lucky := false }

/-- A state ready for `RollAndMatch`: valid session, card in play, and a
balance covering the roll fee. -/
def stRoll : FlashportState :=
  { stEmpty with active_session := some sessS, current_card := some cardS,
                 player_balance := MIN_BET }

/-- A state ready for `NewGame` whose roll history is non-empty. -/
def stFresh : FlashportState :=
  { stEmpty with active_session := some sessS, player_balance := MIN_BET,
                 roll_history := [recS] }

/-- A state with an unclaimed prize ready for `ClaimPrize`. -/
def stPrize : FlashportState :=
  { stEmpty with active_session := some sessS, current_card := some cardS,
                 has_unclaimed_prize := true }

/-- A card whose marked grid has both row 0 and column 0 complete. -/
def cardRowCol : BingoCard :=
  { cardS with marked :=
      [true, true, true, true, true,
       true, false, false, false, false,
       true, false, false, false, false,
       true, false, false, false, false,
       true, false, false, false, false] }

-- =========================================================================
-- Helper lemmas
-- =========================================================================

theorem trimHistory_eq (l : List RollRecord) (hle : l.length ≤ 51) :
    trimHistory l = l.drop (l.length - 50) := by
  rw [trimHistory]
  split
  next hgt =>
    rw [trimHistory]
    split
    next hgt2 => simp at hgt2; omega
    next hgt2 =>
      have h1 : l.length - 50 = 1 := by omega
      rw [h1]
  next hgt =>
    have h0 : l.length - 50 = 0 := by omega
    rw [h0, List.drop_zero]

@[simp] theorem bumpSession_player_balance (s : FlashportState) :
    (bumpSession s).player_balance = s.player_balance := by
  unfold bumpSession; split <;> rfl

@[simp] theorem bumpSession_total_spent (s : FlashportState) :
    (bumpSession s).total_spent = s.total_spent := by
  unfold bumpSession; split <;> rfl

@[simp] theorem bumpSession_roll_history (s : FlashportState) :
    (bumpSession s).roll_history = s.roll_history := by
  unfold bumpSession; split <;> rfl

@[simp] theorem bumpSession_current_card (s : FlashportState) :
    (bumpSession s).current_card = s.current_card := by
  unfold bumpSession; split <;> rfl

@[simp] theorem bumpSession_drawn_numbers (s : FlashportState) :
    (bumpSession s).drawn_numbers = s.drawn_numbers := by
  unfold bumpSession; split <;> rfl

@[simp] theorem bumpSession_has_unclaimed_prize (s : FlashportState) :
    (bumpSession s).has_unclaimed_prize = s.has_unclaimed_prize := by
  unfold bumpSession; split <;> rfl

@[simp] theorem bumpSession_total_games (s : FlashportState) :
    (bumpSession s).total_games = s.total_games := by
  unfold bumpSession; split <;> rfl

@[simp] theorem bumpSession_current_prize_pool (s : FlashportState) :
    (bumpSession s).current_prize_pool = s.current_prize_pool := by
  unfold bumpSession; split <;> rfl

@[simp] theorem bumpSession_game_counter (s : FlashportState) :
    (bumpSession s).game_counter = s.game_counter := by
  unfold bumpSession; split <;> rfl

@[simp] theorem bumpSession_total_wins (s : FlashportState) :
    (bumpSession s).total_wins = s.total_wins := by
  unfold bumpSession; split <;> rfl

theorem bumpSession_active_session (s : FlashportState) :
    (bumpSession s).active_session =
      s.active_session.map
        (fun sess => { sess with operations_count := sess.operations_count + 1 }) := by
  unfold bumpSession
  cases hs : s.active_session <;> simp [hs]

/-- `new_game` on a valid bet with sufficient balance: the full success
shape. -/
theorem new_game_ok (env : Env) (s : FlashportState) (bet : Nat)
    (h1 : MIN_BET ≤ bet) (h2 : bet ≤ MAX_BET) (h3 : bet ≤ s.player_balance) :
    new_game env s bet =
      (let s1 : FlashportState :=
        { s with player_balance := satSub s.player_balance bet,
                 total_spent := satAdd s.total_spent bet }
       let game_id := s.game_counter + 1
       let s2 := { s1 with game_counter := game_id }
       let card := { generate_card env s2 game_id with bet_amount_atto := bet }
       (.GameStarted game_id card bet bet,
        bumpSession { s2 with
          current_card := some card,
          drawn_numbers := [],
          has_unclaimed_prize := false,
          current_prize_pool := bet,
          total_games := s.total_games + 1 })) := by
  unfold new_game charge_fee
  rw [if_neg (by omega), if_neg (by omega), if_neg (by omega)]

/-- `roll_and_match` when all gating checks pass and the roll fee is
affordable: the full success shape. -/
theorem roll_and_match_ok (env : Env) (s : FlashportState) (card : BingoCard)
    (hc : s.current_card = some card)
    (hpc : card.prize_claimed = false)
    (hup : s.has_unclaimed_prize = false)
    (hfee : ROLL_COST ≤ s.player_balance) :
    roll_and_match env s =
      (let s1 : FlashportState :=
        { s with player_balance := satSub s.player_balance ROLL_COST,
                 total_spent := satAdd s.total_spent ROLL_COST }
       let dice := generate_dice_roll env s1 card.rolls_count
       let sum := dice.foldl (· + ·) 0
       let drawn :=
         if s1.drawn_numbers.contains sum then s1.drawn_numbers
         else s1.drawn_numbers ++ [sum]
       let s2 := { s1 with drawn_numbers := drawn }
       let marked := mark_number_on_card card sum
       let bingo_type := check_bingo_on_card marked.1
       let s3 :=
         if bingo_type.isSome then
           { s2 with total_wins := s2.total_wins + 1, has_unclaimed_prize := true }
         else s2
       let card3 := { marked.1 with
         rolls_count := marked.1.rolls_count + 1,
         total_roll_fees_atto := (marked.1.total_roll_fees_atto + ROLL_COST) % U128MOD }
       let s5 := bumpSession { s3 with current_card := some card3 }
       let record : RollRecord :=
         { dice := dice, sum := sum, matched := marked.2.1,
           timestamp_micros := env.timestamp_micros,
           fee_paid_atto := ROLL_COST, is_lucky := decide (marked.2.2.2 > 1) }
       (.RollResult dice sum marked.2.1 (marked.2.2.1.map Prod.fst)
          (marked.2.2.1.map Prod.snd) bingo_type bingo_type.isSome
          (marked.1.rolls_count + 1) ROLL_COST
          ((marked.1.total_roll_fees_atto + ROLL_COST) % U128MOD)
          (decide (marked.2.2.2 > 1)),
        { s5 with roll_history := histStep s5.roll_history record })) := by
  unfold roll_and_match charge_fee
  split
  next heq => rw [hc] at heq; simp at heq
  next card1 heq =>
    rw [hc] at heq
    injection heq with heq1
    subst heq1
    rw [if_neg (by simp [hpc]), if_neg (by simp [hup]), if_neg (by omega)]

/-- `new_game` failure: bet below range. -/
theorem new_game_fail_low (env : Env) (s : FlashportState) (bet : Nat)
    (h : bet < MIN_BET) : new_game env s bet = (.Error .betTooLow, s) := by
  unfold new_game
  rw [if_pos h]

/-- `new_game` failure: bet above range. -/
theorem new_game_fail_high (env : Env) (s : FlashportState) (bet : Nat)
    (h1 : MIN_BET ≤ bet) (h : MAX_BET < bet) :
    new_game env s bet = (.Error .betTooHigh, s) := by
  unfold new_game
  rw [if_neg (by omega), if_pos h]

/-- `new_game` failure: insufficient balance for the bet escrow. -/
theorem new_game_fail_balance (env : Env) (s : FlashportState) (bet : Nat)
    (h1 : MIN_BET ≤ bet) (h2 : bet ≤ MAX_BET) (h : s.player_balance < bet) :
    new_game env s bet = (.Error .insufficientBalance, s) := by
  unfold new_game charge_fee
  rw [if_neg (by omega), if_neg (by omega), if_pos (by omega)]

/-- `roll_and_match` failure: no active game. -/
theorem roll_and_match_no_card (env : Env) (s : FlashportState)
    (h : s.current_card = none) :
    roll_and_match env s = (.Error .noActiveGame, s) := by
  unfold roll_and_match
  rw [h]

/-- `roll_and_match` failure: game already completed. -/
theorem roll_and_match_claimed (env : Env) (s : FlashportState) (card : BingoCard)
    (hc : s.current_card = some card) (h : card.prize_claimed = true) :
    roll_and_match env s = (.Error .gameAlreadyComplete, s) := by
  unfold roll_and_match
  split
  next heq => rw [hc] at heq; simp at heq
  next card1 heq =>
    rw [hc] at heq
    injection heq with heq1
    subst heq1
    rw [if_pos h]

/-- `roll_and_match` failure: unclaimed prize pending. -/
theorem roll_and_match_pending (env : Env) (s : FlashportState) (card : BingoCard)
    (hc : s.current_card = some card) (hpc : card.prize_claimed = false)
    (h : s.has_unclaimed_prize = true) :
    roll_and_match env s = (.Error .bingoPendingClaim, s) := by
  unfold roll_and_match
  split
  next heq => rw [hc] at heq; simp at heq
  next card1 heq =>
    rw [hc] at heq
    injection heq with heq1
    subst heq1
    rw [if_neg (by simp [hpc]), if_pos h]

/-- `roll_and_match` failure: insufficient balance for the roll fee. -/
theorem roll_and_match_fee_fail (env : Env) (s : FlashportState) (card : BingoCard)
    (hc : s.current_card = some card) (hpc : card.prize_claimed = false)
    (hup : s.has_unclaimed_prize = false) (h : s.player_balance < ROLL_COST) :
    roll_and_match env s = (.Error .insufficientBalance, s) := by
  unfold roll_and_match charge_fee
  split
  next heq => rw [hc] at heq; simp at heq
  next card1 heq =>
    rw [hc] at heq
    injection heq with heq1
    subst heq1
    rw [if_neg (by simp [hpc]), if_neg (by simp [hup]), if_pos (by omega)]

theorem markStep_fields (sum : Nat) (acc : BingoCard × Bool × Option (Nat × Nat) × Nat)
    (idx : Nat) :
    (markStep sum acc idx).1.id = acc.1.id ∧
    (markStep sum acc idx).1.numbers = acc.1.numbers ∧
    (markStep sum acc idx).1.rolls_count = acc.1.rolls_count ∧
    (markStep sum acc idx).1.bet_amount_atto = acc.1.bet_amount_atto ∧
    (markStep sum acc idx).1.total_roll_fees_atto = acc.1.total_roll_fees_atto ∧
    (markStep sum acc idx).1.prize_claimed = acc.1.prize_claimed := by
  refine ⟨?_, ?_, ?_, ?_, ?_, ?_⟩ <;> (unfold markStep; dsimp only []; split <;> rfl)

theorem foldl_markStep_fields (sum : Nat) (idxs : List Nat) :
    ∀ acc : BingoCard × Bool × Option (Nat × Nat) × Nat,
    (idxs.foldl (markStep sum) acc).1.id = acc.1.id ∧
    (idxs.foldl (markStep sum) acc).1.numbers = acc.1.numbers ∧
    (idxs.foldl (markStep sum) acc).1.rolls_count = acc.1.rolls_count ∧
    (idxs.foldl (markStep sum) acc).1.bet_amount_atto = acc.1.bet_amount_atto ∧
    (idxs.foldl (markStep sum) acc).1.total_roll_fees_atto = acc.1.total_roll_fees_atto ∧
    (idxs.foldl (markStep sum) acc).1.prize_claimed = acc.1.prize_claimed := by
  induction idxs with
  | nil => intro acc; exact ⟨rfl, rfl, rfl, rfl, rfl, rfl⟩
  | cons i is ih =>
      intro acc
      rw [List.foldl_cons]
      obtain ⟨a1, a2, a3, a4, a5, a6⟩ := ih (markStep sum acc i)
      obtain ⟨b1, b2, b3, b4, b5, b6⟩ := markStep_fields sum acc i
      exact ⟨a1.trans b1, a2.trans b2, a3.trans b3, a4.trans b4, a5.trans b5, a6.trans b6⟩

/-- Marking only touches the `marked` grid: every other card field is
preserved. -/
theorem mark_number_on_card_fields (card : BingoCard) (sum : Nat) :
    (mark_number_on_card card sum).1.id = card.id ∧
    (mark_number_on_card card sum).1.numbers = card.numbers ∧
    (mark_number_on_card card sum).1.rolls_count = card.rolls_count ∧
    (mark_number_on_card card sum).1.bet_amount_atto = card.bet_amount_atto ∧
    (mark_number_on_card card sum).1.total_roll_fees_atto = card.total_roll_fees_atto ∧
    (mark_number_on_card card sum).1.prize_claimed = card.prize_claimed := by
  unfold mark_number_on_card
  exact foldl_markStep_fields sum (List.range 25) (card, false, none, 0)

theorem validate_session_none (env : Env) (s : FlashportState)
    (h : s.active_session = none) :
    validate_session env s = .error .noActiveSession := by
  unfold validate_session
  rw [h]

theorem validate_session_expired (env : Env) (s : FlashportState) (sess : GameSession)
    (hs : s.active_session = some sess)
    (h : sess.expires_at_micros ≤ env.timestamp_micros) :
    validate_session env s = .error .sessionExpired := by
  unfold validate_session
  split
  next heq => rw [hs] at heq; simp at heq
  next sess1 heq =>
    rw [hs] at heq
    injection heq with heq1
    subst heq1
    rw [if_pos h]

theorem validate_session_valid (env : Env) (s : FlashportState) (sess : GameSession)
    (hs : s.active_session = some sess)
    (h : env.timestamp_micros < sess.expires_at_micros) :
    validate_session env s = .ok () := by
  unfold validate_session
  split
  next heq => rw [hs] at heq; simp at heq
  next sess1 heq =>
    rw [hs] at heq
    injection heq with heq1
    subst heq1
    rw [if_neg (by omega)]

theorem execute_roll_eq (env : Env) (s : FlashportState)
    (hv : validate_session env s = .ok ()) :
    execute_operation env s .RollAndMatch = roll_and_match env s := by
  unfold execute_operation
  rw [hv]

/-- `claim_prize` when a prize is pending, the card exists, is unclaimed,
and stores a non-zero bet: the full success shape. -/
theorem claim_prize_ok (s : FlashportState) (card : BingoCard)
    (h1 : s.has_unclaimed_prize = true)
    (hc : s.current_card = some card)
    (h2 : card.prize_claimed = false)
    (h3 : card.bet_amount_atto ≠ 0) :
    claim_prize s =
      (let m := get_multiplier card.rolls_count
       let payout_atto := satMul card.bet_amount_atto m.1 / m.2.1
       (.PrizeClaimed card.bet_amount_atto card.rolls_count m.2.2 payout_atto
          (satAdd s.player_balance payout_atto),
        { s with
            player_balance := satAdd s.player_balance payout_atto,
            total_won := satAdd s.total_won payout_atto,
            current_card := some { card with prize_claimed := true },
            has_unclaimed_prize := false,
            current_prize_pool := 0 })) := by
  unfold claim_prize
  rw [if_neg (by simp [h1])]
  split
  next heq => rw [hc] at heq; simp at heq
  next card1 heq =>
    rw [hc] at heq
    injection heq with heq1
    subst heq1
    rw [if_neg (by simp [h2]), if_neg h3]

/-- `List.find?` on a cons cell, in if-then-else form. -/
theorem find?_cons_ite {α : Type} (p : α → Bool) (a : α) (l : List α) :
    (a :: l).find? p = if p a = true then some a else l.find? p := by
  rw [List.find?_cons]
  cases p a <;> simp

/-- Each spec-side pattern completeness test agrees with the embedded
line tests. -/
theorem patternComplete_eqs (m : List Bool) :
    patternComplete m .Row0 = rowComplete m 0 ∧
    patternComplete m .Row1 = rowComplete m 1 ∧
    patternComplete m .Row2 = rowComplete m 2 ∧
    patternComplete m .Row3 = rowComplete m 3 ∧
    patternComplete m .Row4 = rowComplete m 4 ∧
    patternComplete m .Col0 = colComplete m 0 ∧
    patternComplete m .Col1 = colComplete m 1 ∧
    patternComplete m .Col2 = colComplete m 2 ∧
    patternComplete m .Col3 = colComplete m 3 ∧
    patternComplete m .Col4 = colComplete m 4 ∧
    patternComplete m .DiagonalMain = diagMainComplete m ∧
    patternComplete m .DiagonalAnti = diagAntiComplete m ∧
    patternComplete m .FullCard = fullComplete m := by
  refine ⟨?_, ?_, ?_, ?_, ?_, ?_, ?_, ?_, ?_, ?_, ?_, ?_, ?_⟩ <;>
    simp [patternComplete, patternCells, rowComplete, colComplete,
      diagMainComplete, diagAntiComplete, fullComplete, List.all_map,
      Function.comp_def]

/-- One `roll_and_match` history update, in drop form. -/
theorem histStep_eq (h : List RollRecord) (r : RollRecord) (hle : h.length ≤ 50) :
    histStep h r = (h ++ [r]).drop (h.length + 1 - 50) := by
  unfold histStep
  rw [trimHistory_eq _ (by simp; omega)]
  simp

/-- Folding `roll_and_match` history updates keeps exactly the most
recent 50 records. -/
theorem foldl_histStep_eq (rs : List RollRecord) :
    ∀ h : List RollRecord, h.length ≤ 50 →
      rs.foldl histStep h = (h ++ rs).drop (h.length + rs.length - 50) := by
  induction rs with
  | nil =>
      intro h hle
      simp only [List.foldl_nil, List.append_nil, List.length_nil, Nat.add_zero]
      have h0 : h.length - 50 = 0 := by omega
      rw [h0, List.drop_zero]
  | cons r rs ih =>
      intro h hle
      rw [List.foldl_cons]
      have hlen1 : (histStep h r).length ≤ 50 := by
        rw [histStep_eq h r hle]
        simp
        omega
      rw [ih (histStep h r) hlen1, histStep_eq h r hle]
      rw [← List.drop_append_of_le_length
        (show h.length + 1 - 50 ≤ (h ++ [r]).length by simp; omega)]
      rw [List.drop_drop, List.append_assoc, List.singleton_append]
      congr 1
      simp
      omega

theorem getD_eq_getElem' (l : List Nat) (k : Nat) (h : k < l.length) :
    l.getD k 0 = l[k] :=
  List.getD_eq_getElem l 0 h

theorem nodup_iff_pairs {l : List Nat} :
    l.Nodup ↔ ∀ (a b : Nat) (ha : a < l.length) (hb : b < l.length),
      a ≠ b → l[a] ≠ l[b] := by
  rw [List.nodup_iff_injective_getElem]
  constructor
  · intro hinj a b ha hb hab hEq
    have h2 : (⟨a, ha⟩ : Fin l.length) = ⟨b, hb⟩ := hinj hEq
    exact hab (by simpa using congrArg Fin.val h2)
  · intro h a b hEq
    by_contra hne
    exact h a.1 b.1 a.2 b.2 (by simpa [Fin.val_inj] using hne) hEq

@[simp] theorem length_listSwap (l : List Nat) (i j : Nat) :
    (listSwap l i j).length = l.length := by
  unfold listSwap
  simp

theorem getD_listSwap (l : List Nat) (i j k : Nat)
    (hi : i < l.length) (hj : j < l.length) (hk : k < l.length) :
    (listSwap l i j).getD k 0 =
      if j = k then l[i] else if i = k then l[j] else l[k] := by
  unfold listSwap
  dsimp only []
  rw [getD_eq_getElem' _ k (by simp; exact hk)]
  rw [List.getElem_set, List.getElem_set]
  simp only [getD_eq_getElem' l i hi, getD_eq_getElem' l j hj]

theorem mem_of_mem_listSwap {l : List Nat} {i j : Nat} {x : Nat}
    (hi : i < l.length) (hj : j < l.length) (hx : x ∈ listSwap l i j) :
    x ∈ l := by
  unfold listSwap at hx
  dsimp only [] at hx
  rcases List.mem_or_eq_of_mem_set hx with hx1 | rfl
  · rcases List.mem_or_eq_of_mem_set hx1 with hx2 | rfl
    · exact hx2
    · rw [getD_eq_getElem' l j hj]
      exact List.getElem_mem hj
  · rw [getD_eq_getElem' l i hi]
    exact List.getElem_mem hi

theorem nodup_listSwap {l : List Nat} {i j : Nat}
    (hi : i < l.length) (hj : j < l.length) (hnd : l.Nodup) :
    (listSwap l i j).Nodup := by
  rw [nodup_iff_pairs] at hnd ⊢
  intro a b ha hb hab
  rw [length_listSwap] at ha hb
  rw [← getD_eq_getElem' _ a (by simpa using ha),
    ← getD_eq_getElem' _ b (by simpa using hb)]
  rw [getD_listSwap l i j a hi hj ha, getD_listSwap l i j b hi hj hb]
  split
  next h1 =>
    split
    next h2 => omega
    next h2 =>
      split
      next h3 => exact hnd i j hi hj (by omega)
      next h3 => exact hnd i b hi hb (by omega)
  next h1 =>
    split
    next h2 =>
      split
      next h3 => exact hnd j i hj hi (by omega)
      next h3 =>
        split
        next h4 => omega
        next h4 => exact hnd j b hj hb (by omega)
    next h2 =>
      split
      next h3 => exact hnd a i ha hi (by omega)
      next h3 =>
        split
        next h4 => exact hnd a j ha hj (by omega)
        next h4 => exact hnd a b ha hb (by omega)

theorem shuffleAux_length (n : Nat) :
    ∀ (rng : Nat) (pool : List Nat),
      (shuffleAux n rng pool).2.length = pool.length := by
  induction n with
  | zero => intro rng pool; rfl
  | succ n ih =>
      intro rng pool
      rw [shuffleAux]
      rw [ih]
      simp

theorem shuffleAux_mem (n : Nat) :
    ∀ (rng : Nat) (pool : List Nat) (x : Nat), n < pool.length →
      x ∈ (shuffleAux n rng pool).2 → x ∈ pool := by
  induction n with
  | zero => intro rng pool x _ hx; exact hx
  | succ n ih =>
      intro rng pool x h hx
      rw [shuffleAux] at hx
      have hj : next_random rng % (n + 2) < pool.length :=
        Nat.lt_of_lt_of_le (Nat.mod_lt _ (by omega)) (by omega)
      have h2 : n < (listSwap pool (n + 1) (next_random rng % (n + 2))).length := by
        rw [length_listSwap]; omega
      exact mem_of_mem_listSwap (by omega) hj (ih _ _ x h2 hx)

theorem shuffleAux_nodup (n : Nat) :
    ∀ (rng : Nat) (pool : List Nat), n < pool.length → pool.Nodup →
      (shuffleAux n rng pool).2.Nodup := by
  induction n with
  | zero => intro rng pool _ hnd; exact hnd
  | succ n ih =>
      intro rng pool h hnd
      rw [shuffleAux]
      have hj : next_random rng % (n + 2) < pool.length :=
        Nat.lt_of_lt_of_le (Nat.mod_lt _ (by omega)) (by omega)
      exact ih _ _ (by rw [length_listSwap]; omega)
        (nodup_listSwap (by omega) hj hnd)

theorem initialPool_length : initialPool.length = 21 := rfl

theorem initialPool_nodup : initialPool.Nodup := List.nodup_range' _ _

theorem initialPool_mem {x : Nat} (hx : x ∈ initialPool) : 4 ≤ x ∧ x ≤ 24 := by
  have h := List.mem_range'_1.1 hx
  omega

theorem fillChunk1 (pool : List Nat) (hp : pool.length = 21) :
    List.foldl (fillStep pool)
      ([0, 0, 0, 0, 0, 0, 0, 0, 0, 0, 0, 0, 0, 0, 0, 0, 0, 0, 0, 0, 0, 0, 0, 0, 0],
       [false, false, false, false, false, false, false, false, false, false, false, false, false, false, false, false, false, false, false, false, false, false, false, false, false], 0)
      [0, 1, 2, 3, 4] =
      ([pool.getD 0 0, pool.getD 1 0, pool.getD 2 0, pool.getD 3 0, pool.getD 4 0, 0, 0, 0, 0, 0, 0, 0, 0, 0, 0, 0, 0, 0, 0, 0, 0, 0, 0, 0, 0],
       [false, false, false, false, false, false, false, false, false, false, false, false, false, false, false, false, false, false, false, false, false, false, false, false, false], 5) := by
  norm_num [fillStep, hp, List.set]

theorem fillChunk2 (pool : List Nat) (hp : pool.length = 21) :
    List.foldl (fillStep pool)
      ([pool.getD 0 0, pool.getD 1 0, pool.getD 2 0, pool.getD 3 0, pool.getD 4 0, 0, 0, 0, 0, 0, 0, 0, 0, 0, 0, 0, 0, 0, 0, 0, 0, 0, 0, 0, 0],
       [false, false, false, false, false, false, false, false, false, false, false, false, false, false, false, false, false, false, false, false, false, false, false, false, false], 5)
      [5, 6, 7, 8, 9] =
      ([pool.getD 0 0, pool.getD 1 0, pool.getD 2 0, pool.getD 3 0, pool.getD 4 0, pool.getD 5 0, pool.getD 6 0, pool.getD 7 0, pool.getD 8 0, pool.getD 9 0, 0, 0, 0, 0, 0, 0, 0, 0, 0, 0, 0, 0, 0, 0, 0],
       [false, false, false, false, false, false, false, false, false, false, false, false, false, false, false, false, false, false, false, false, false, false, false, false, false], 10) := by
  norm_num [fillStep, hp, List.set]

theorem fillChunk3 (pool : List Nat) (hp : pool.length = 21) :
    List.foldl (fillStep pool)
      ([pool.getD 0 0, pool.getD 1 0, pool.getD 2 0, pool.getD 3 0, pool.getD 4 0, pool.getD 5 0, pool.getD 6 0, pool.getD 7 0, pool.getD 8 0, pool.getD 9 0, 0, 0, 0, 0, 0, 0, 0, 0, 0, 0, 0, 0, 0, 0, 0],
       [false, false, false, false, false, false, false, false, false, false, false, false, false, false, false, false, false, false, false, false, false, false, false, false, false], 10)
      [10, 11, 12, 13, 14] =
      ([pool.getD 0 0, pool.getD 1 0, pool.getD 2 0, pool.getD 3 0, pool.getD 4 0, pool.getD 5 0, pool.getD 6 0, pool.getD 7 0, pool.getD 8 0, pool.getD 9 0, pool.getD 10 0, pool.getD 11 0, 0, pool.getD 12 0, pool.getD 13 0, 0, 0, 0, 0, 0, 0, 0, 0, 0, 0],
       [false, false, false, false, false, false, false, false, false, false, false, false, true, false, false, false, false, false, false, false, false, false, false, false, false], 14) := by
  norm_num [fillStep, hp, List.set]

theorem fillChunk4 (pool : List Nat) (hp : pool.length = 21) :
    List.foldl (fillStep pool)
      ([pool.getD 0 0, pool.getD 1 0, pool.getD 2 0, pool.getD 3 0, pool.getD 4 0, pool.getD 5 0, pool.getD 6 0, pool.getD 7 0, pool.getD 8 0, pool.getD 9 0, pool.getD 10 0, pool.getD 11 0, 0, pool.getD 12 0, pool.getD 13 0, 0, 0, 0, 0, 0, 0, 0, 0, 0, 0],
       [false, false, false, false, false, false, false, false, false, false, false, false, true, false, false, false, false, false, false, false, false, false, false, false, false], 14)
      [15, 16, 17, 18, 19] =
      ([pool.getD 0 0, pool.getD 1 0, pool.getD 2 0, pool.getD 3 0, pool.getD 4 0, pool.getD 5 0, pool.getD 6 0, pool.getD 7 0, pool.getD 8 0, pool.getD 9 0, pool.getD 10 0, pool.getD 11 0, 0, pool.getD 12 0, pool.getD 13 0, pool.getD 14 0, pool.getD 15 0, pool.getD 16 0, pool.getD 17 0, pool.getD 18 0, 0, 0, 0, 0, 0],
       [false, false, false, false, false, false, false, false, false, false, false, false, true, false, false, false, false, false, false, false, false, false, false, false, false], 19) := by
  norm_num [fillStep, hp, List.set]

theorem fillChunk5 (pool : List Nat) (hp : pool.length = 21) :
    List.foldl (fillStep pool)
      ([pool.getD 0 0, pool.getD 1 0, pool.getD 2 0, pool.getD 3 0, pool.getD 4 0, pool.getD 5 0, pool.getD 6 0, pool.getD 7 0, pool.getD 8 0, pool.getD 9 0, pool.getD 10 0, pool.getD 11 0, 0, pool.getD 12 0, pool.getD 13 0, pool.getD 14 0, pool.getD 15 0, pool.getD 16 0, pool.getD 17 0, pool.getD 18 0, 0, 0, 0, 0, 0],
       [false, false, false, false, false, false, false, false, false, false, false, false, true, false, false, false, false, false, false, false, false, false, false, false, false], 19)
      [20, 21, 22, 23, 24] =
      ([pool.getD 0 0, pool.getD 1 0, pool.getD 2 0, pool.getD 3 0, pool.getD 4 0, pool.getD 5 0, pool.getD 6 0, pool.getD 7 0, pool.getD 8 0, pool.getD 9 0, pool.getD 10 0, pool.getD 11 0, 0, pool.getD 12 0, pool.getD 13 0, pool.getD 14 0, pool.getD 15 0, pool.getD 16 0, pool.getD 17 0, pool.getD 18 0, pool.getD 19 0, pool.getD 20 0, pool.getD 0 0, pool.getD 1 0, pool.getD 2 0],
       [false, false, false, false, false, false, false, false, false, false, false, false, true, false, false, false, false, false, false, false, false, false, false, false, false], 24) := by
  norm_num [fillStep, hp, List.set]

/-- Closed form of `fillCells` for a 21-element pool: the 24 non-centre
cells consume `pool[0..20]` in order and then wrap around to
`pool[0]`, `pool[1]`, `pool[2]` for the last three cells. -/
theorem fillCells_eq (pool : List Nat) (hp : pool.length = 21) :
    fillCells pool =
      ([pool.getD 0 0, pool.getD 1 0, pool.getD 2 0, pool.getD 3 0, pool.getD 4 0, pool.getD 5 0, pool.getD 6 0, pool.getD 7 0, pool.getD 8 0, pool.getD 9 0, pool.getD 10 0, pool.getD 11 0, 0, pool.getD 12 0, pool.getD 13 0, pool.getD 14 0, pool.getD 15 0, pool.getD 16 0, pool.getD 17 0, pool.getD 18 0, pool.getD 19 0, pool.getD 20 0, pool.getD 0 0, pool.getD 1 0, pool.getD 2 0],
       [false, false, false, false, false, false, false, false, false, false, false, false, true, false, false, false, false, false, false, false, false, false, false, false, false], 24) := by
  unfold fillCells
  rw [show List.range 25 =
    [0, 1, 2, 3, 4] ++ ([5, 6, 7, 8, 9] ++ ([10, 11, 12, 13, 14] ++
      ([15, 16, 17, 18, 19] ++ [20, 21, 22, 23, 24]))) from rfl]
  rw [show List.replicate 25 (0 : Nat) = [0, 0, 0, 0, 0, 0, 0, 0, 0, 0, 0, 0, 0, 0, 0, 0, 0, 0, 0, 0, 0, 0, 0, 0, 0] from rfl]
  rw [show List.replicate 25 false = [false, false, false, false, false, false, false, false, false, false, false, false, false, false, false, false, false, false, false, false, false, false, false, false, false] from rfl]
  rw [List.foldl_append, List.foldl_append, List.foldl_append, List.foldl_append]
  rw [fillChunk1 pool hp, fillChunk2 pool hp, fillChunk3 pool hp,
    fillChunk4 pool hp, fillChunk5 pool hp]

-- =========================================================================
-- Claim theorems
-- =========================================================================

/-- C10: `Withdraw` with amount 0 always succeeds, returning
`WithdrawalProcessed` with the balance unchanged and mutating no state,
while `Deposit` rejects a zero amount with an error. -/
theorem withdraw_zero_succeeds_deposit_zero_fails :
    (∀ s : FlashportState,
       handle_withdraw s 0 = (.WithdrawalProcessed 0 s.player_balance, s)) ∧
    (∀ s : FlashportState, handle_deposit s 0 = (.Error .zeroDeposit, s)) := by
  constructor
  · intro s
    unfold handle_withdraw
    rw [if_neg (by omega)]
    simp [satSub]
  · intro s
    unfold handle_deposit
    rw [if_pos rfl]

/-- C7: `charge_fee` fails with `InsufficientBalance` and mutates nothing
when the fee exceeds the available balance; otherwise it debits
`player_balance` and credits `total_spent`; and any debit performed by
`new_game` or `roll_and_match` is exactly a `charge_fee` debit. -/
theorem charge_fee_spec (s : FlashportState) (f : Nat) :
    (s.player_balance < f → charge_fee s f = (.error .insufficientBalance, s)) ∧
    (f ≤ s.player_balance →
      charge_fee s f = (.ok (),
        { s with player_balance := satSub s.player_balance f,
                 total_spent := satAdd s.total_spent f })) ∧
    (∀ env bet r s', new_game env s bet = (r, s') →
      (s'.player_balance = s.player_balance ∧ s'.total_spent = s.total_spent) ∨
      (bet ≤ s.player_balance ∧ s'.player_balance = satSub s.player_balance bet ∧
        s'.total_spent = satAdd s.total_spent bet)) ∧
    (∀ env r s', roll_and_match env s = (r, s') →
      (s'.player_balance = s.player_balance ∧ s'.total_spent = s.total_spent) ∨
      (ROLL_COST ≤ s.player_balance ∧
        s'.player_balance = satSub s.player_balance ROLL_COST ∧
        s'.total_spent = satAdd s.total_spent ROLL_COST)) := by
  refine ⟨?_, ?_, ?_, ?_⟩
  · intro h
    unfold charge_fee
    rw [if_pos h]
  · intro h
    unfold charge_fee
    rw [if_neg (by omega)]
  · intro env bet r s' h
    by_cases hlow : bet < MIN_BET
    · rw [new_game_fail_low env s bet hlow] at h
      injection h with h1 h2; subst h2; left; exact ⟨rfl, rfl⟩
    · by_cases hhigh : MAX_BET < bet
      · rw [new_game_fail_high env s bet (by omega) hhigh] at h
        injection h with h1 h2; subst h2; left; exact ⟨rfl, rfl⟩
      · by_cases hbal : s.player_balance < bet
        · rw [new_game_fail_balance env s bet (by omega) (by omega) hbal] at h
          injection h with h1 h2; subst h2; left; exact ⟨rfl, rfl⟩
        · rw [new_game_ok env s bet (by omega) (by omega) (by omega)] at h
          injection h with h1 h2; subst h2
          right
          refine ⟨by omega, ?_, ?_⟩ <;> simp
  · intro env r s' h
    cases hcard : s.current_card with
    | none =>
        rw [roll_and_match_no_card env s hcard] at h
        injection h with h1 h2; subst h2; left; exact ⟨rfl, rfl⟩
    | some card =>
        by_cases hpc : card.prize_claimed = true
        · rw [roll_and_match_claimed env s card hcard hpc] at h
          injection h with h1 h2; subst h2; left; exact ⟨rfl, rfl⟩
        · by_cases hup : s.has_unclaimed_prize = true
          · rw [roll_and_match_pending env s card hcard (by simpa using hpc) hup] at h
            injection h with h1 h2; subst h2; left; exact ⟨rfl, rfl⟩
          · by_cases hbal : s.player_balance < ROLL_COST
            · rw [roll_and_match_fee_fail env s card hcard (by simpa using hpc)
                (by simpa using hup) hbal] at h
              injection h with h1 h2; subst h2; left; exact ⟨rfl, rfl⟩
            · rw [roll_and_match_ok env s card hcard (by simpa using hpc)
                (by simpa using hup) (by omega)] at h
              injection h with h1 h2; subst h2
              right
              refine ⟨by omega, ?_, ?_⟩ <;> (simp; split <;> rfl)

/-- C8: session validation fails `NoActiveSession` with no session,
fails `SessionExpired` exactly when `now ≥ expires_at` (strict boundary),
succeeds when `now < expires_at`, and every gated operation returns the
validation error with the state unmodified when validation fails. -/
theorem session_gate_spec :
    (∀ (env : Env) (s : FlashportState), s.active_session = none →
      validate_session env s = .error .noActiveSession) ∧
    (∀ (env : Env) (s : FlashportState) sess, s.active_session = some sess →
      sess.expires_at_micros ≤ env.timestamp_micros →
      validate_session env s = .error .sessionExpired) ∧
    (∀ (env : Env) (s : FlashportState) sess, s.active_session = some sess →
      env.timestamp_micros < sess.expires_at_micros →
      validate_session env s = .ok ()) ∧
    (∀ (env : Env) (s : FlashportState) e, validate_session env s = .error e →
      ∀ bet, execute_operation env s (.NewGame bet) = (.Error e, s) ∧
        execute_operation env s .RollAndMatch = (.Error e, s) ∧
        execute_operation env s .ClaimPrize = (.Error e, s)) := by
  refine ⟨?_, ?_, ?_, ?_⟩
  · intro env s h
    unfold validate_session
    rw [h]
  · intro env s sess h hle
    unfold validate_session
    split
    next heq => rw [h] at heq; simp at heq
    next sess1 heq =>
      rw [h] at heq
      injection heq with heq1
      subst heq1
      rw [if_pos hle]
  · intro env s sess h hlt
    unfold validate_session
    split
    next heq => rw [h] at heq; simp at heq
    next sess1 heq =>
      rw [h] at heq
      injection heq with heq1
      subst heq1
      rw [if_neg (by omega)]
  · intro env s e h bet
    refine ⟨?_, ?_, ?_⟩ <;> (unfold execute_operation; rw [h])

/-- C8 witness: concrete instances of the session gate behaviour. -/
theorem session_gate_spec_witness :
    validate_session envS stEmpty = .error .noActiveSession ∧
    validate_session { block_height := 100, timestamp_micros := 2000000000 } stRoll =
      .error .sessionExpired ∧
    validate_session { block_height := 100, timestamp_micros := 1999999999 } stRoll =
      .ok () :=
  ⟨session_gate_spec.1 envS stEmpty rfl,
   session_gate_spec.2.1 _ stRoll sessS rfl (by decide),
   session_gate_spec.2.2.1 _ stRoll sessS rfl (by decide)⟩

/-- C7 witness: a concrete failed charge leaves the state unchanged, and a
concrete successful charge debits the balance and credits `total_spent`. -/
theorem charge_fee_spec_witness :
    charge_fee stEmpty 5 = (.error .insufficientBalance, stEmpty) ∧
    charge_fee stRoll ROLL_COST = (.ok (),
      { stRoll with player_balance := satSub stRoll.player_balance ROLL_COST,
                    total_spent := satAdd stRoll.total_spent ROLL_COST }) :=
  ⟨(charge_fee_spec stEmpty 5).1 (by decide),
   (charge_fee_spec stRoll ROLL_COST).2.1 (by decide)⟩

/-- C3: the multiplier tiers are exactly those of the payout table, and a
successful `ClaimPrize` pays `floor(bet * numerator / denominator)` with
saturating multiplication before the integer division. -/
theorem multiplier_payout_spec :
    (∀ r, r ≤ 9 → get_multiplier r = (10, 1, "10x")) ∧
    (∀ r, 10 ≤ r → r ≤ 14 → get_multiplier r = (5, 1, "5x")) ∧
    (∀ r, 15 ≤ r → r ≤ 19 → get_multiplier r = (3, 1, "3x")) ∧
    (∀ r, 20 ≤ r → r ≤ 24 → get_multiplier r = (2, 1, "2x")) ∧
    (∀ r, 25 ≤ r → r ≤ 34 → get_multiplier r = (12, 10, "1.2x")) ∧
    (∀ r, 35 ≤ r → r ≤ 44 → get_multiplier r = (8, 10, "0.8x")) ∧
    (∀ r, 45 ≤ r → get_multiplier r = (2, 10, "0.2x")) ∧
    (∀ (s : FlashportState) (card : BingoCard),
      s.has_unclaimed_prize = true → s.current_card = some card →
      card.prize_claimed = false → card.bet_amount_atto ≠ 0 →
      claim_prize s =
        (.PrizeClaimed card.bet_amount_atto card.rolls_count
          (get_multiplier card.rolls_count).2.2
          (satMul card.bet_amount_atto (get_multiplier card.rolls_count).1 /
            (get_multiplier card.rolls_count).2.1)
          (satAdd s.player_balance
            (satMul card.bet_amount_atto (get_multiplier card.rolls_count).1 /
              (get_multiplier card.rolls_count).2.1)),
         { s with
             player_balance := satAdd s.player_balance
               (satMul card.bet_amount_atto (get_multiplier card.rolls_count).1 /
                 (get_multiplier card.rolls_count).2.1),
             total_won := satAdd s.total_won
               (satMul card.bet_amount_atto (get_multiplier card.rolls_count).1 /
                 (get_multiplier card.rolls_count).2.1),
             current_card := some { card with prize_claimed := true },
             has_unclaimed_prize := false,
             current_prize_pool := 0 })) := by
  refine ⟨?_, ?_, ?_, ?_, ?_, ?_, ?_, ?_⟩
  · intro r h
    unfold get_multiplier
    rw [if_pos h]
  · intro r h1 h2
    unfold get_multiplier
    rw [if_neg (by omega), if_pos h2]
  · intro r h1 h2
    unfold get_multiplier
    rw [if_neg (by omega), if_neg (by omega), if_pos h2]
  · intro r h1 h2
    unfold get_multiplier
    rw [if_neg (by omega), if_neg (by omega), if_neg (by omega), if_pos h2]
  · intro r h1 h2
    unfold get_multiplier
    rw [if_neg (by omega), if_neg (by omega), if_neg (by omega), if_neg (by omega),
      if_pos h2]
  · intro r h1 h2
    unfold get_multiplier
    rw [if_neg (by omega), if_neg (by omega), if_neg (by omega), if_neg (by omega),
      if_neg (by omega), if_pos h2]
  · intro r h1
    unfold get_multiplier
    rw [if_neg (by omega), if_neg (by omega), if_neg (by omega), if_neg (by omega),
      if_neg (by omega), if_neg (by omega)]
  · intro s card h1 hc h2 h3
    rw [claim_prize_ok s card h1 hc h2 h3]

/-- C3 witness: a concrete tier lookup and a concrete prize claim. -/
theorem multiplier_payout_spec_witness :
    get_multiplier 9 = (10, 1, "10x") ∧
    (claim_prize stPrize).1 = .PrizeClaimed MIN_BET 0 "10x"
      (satMul MIN_BET 10 / 1) (satAdd stPrize.player_balance (satMul MIN_BET 10 / 1)) := by
  refine ⟨multiplier_payout_spec.1 9 (by decide), ?_⟩
  have h := multiplier_payout_spec.2.2.2.2.2.2.2 stPrize cardS rfl rfl rfl (by decide)
  rw [h]
  rfl

/-- C1: when the RollAndMatch gating checks pass (valid session, card
present, prize not claimed, no pending prize) and the roll fee is
affordable, the operation returns a `RollResult` (never an error): the fee
is debited, and every subsequent step (dice, drawn numbers, marking,
detector, counters, history) completes, so the fee is never charged
without the corresponding state advance. -/
theorem roll_fee_atomicity (env : Env) (s : FlashportState) (card : BingoCard)
    (sess : GameSession)
    (hs : s.active_session = some sess)
    (hnow : env.timestamp_micros < sess.expires_at_micros)
    (hc : s.current_card = some card)
    (hpc : card.prize_claimed = false)
    (hup : s.has_unclaimed_prize = false)
    (hfee : ROLL_COST ≤ s.player_balance) :
    ∃ (dice : List Nat) (sum : Nat) (matched : Bool) (mr mc : Option Nat)
      (bt : Option BingoType) (lucky : Bool) (card' : BingoCard)
      (s' : FlashportState),
      execute_operation env s .RollAndMatch =
        (.RollResult dice sum matched mr mc bt bt.isSome (card.rolls_count + 1)
          ROLL_COST ((card.total_roll_fees_atto + ROLL_COST) % U128MOD) lucky, s') ∧
      dice = generate_dice_roll env
        { s with player_balance := satSub s.player_balance ROLL_COST,
                 total_spent := satAdd s.total_spent ROLL_COST } card.rolls_count ∧
      sum = dice.foldl (· + ·) 0 ∧
      s'.player_balance = satSub s.player_balance ROLL_COST ∧
      s'.total_spent = satAdd s.total_spent ROLL_COST ∧
      s'.drawn_numbers =
        (if s.drawn_numbers.contains sum then s.drawn_numbers
         else s.drawn_numbers ++ [sum]) ∧
      s'.current_card = some card' ∧
      card' = { (mark_number_on_card card sum).1 with
                rolls_count := card.rolls_count + 1,
                total_roll_fees_atto :=
                  (card.total_roll_fees_atto + ROLL_COST) % U128MOD } ∧
      bt = check_bingo_on_card (mark_number_on_card card sum).1 ∧
      s'.has_unclaimed_prize = bt.isSome ∧
      s'.total_wins = (if bt.isSome then s.total_wins + 1 else s.total_wins) ∧
      s'.roll_history = histStep s.roll_history
        ⟨dice, sum, matched, env.timestamp_micros, ROLL_COST, lucky⟩ ∧
      s'.active_session =
        some { sess with operations_count := sess.operations_count + 1 } := by
  have hv := validate_session_valid env s sess hs hnow
  rw [execute_roll_eq env s hv, roll_and_match_ok env s card hc hpc hup hfee]
  dsimp only []
  obtain ⟨_, _, e3, _, e5, _⟩ := mark_number_on_card_fields card
    ((generate_dice_roll env
      { s with player_balance := satSub s.player_balance ROLL_COST,
               total_spent := satAdd s.total_spent ROLL_COST }
      card.rolls_count).foldl (· + ·) 0)
  rw [e3, e5]
  refine ⟨_, _, _, _, _, _, _, _, _, rfl, rfl, rfl, ?_, ?_, ?_, ?_, rfl, rfl,
    ?_, ?_, ?_, ?_⟩
  · simp
    split <;> rfl
  · simp
    split <;> rfl
  · simp
    split <;> rfl
  · simp
  · simp
    split
    next hgo => exact hgo.symm
    next hgo =>
      rw [hup]
      symm
      simpa using hgo
  · simp
    split <;> rfl
  · simp [histStep]
    split <;> rfl
  · simp [bumpSession_active_session]
    split <;> simp [hs]

/-- C1 witness: a concrete roll debits exactly the roll fee. -/
theorem roll_fee_atomicity_witness :
    (execute_operation envS stRoll .RollAndMatch).2.player_balance =
      satSub stRoll.player_balance ROLL_COST := by
  obtain ⟨dice, sum, matched, mr, mc, bt, lucky, card', s', h1, _, _, h4, _⟩ :=
    roll_fee_atomicity envS stRoll cardS sessS rfl (by decide) rfl rfl rfl (by decide)
  rw [h1]
  exact h4

/-- C2 counterexample: a successful `NewGame` does NOT clear the roll
history (only `EndSession` does); starting from a state with a non-empty
history, the history is still non-empty afterwards. -/
theorem new_game_history_not_cleared_cx :
    (new_game envS stFresh MIN_BET).2.roll_history ≠ [] := by
  rw [new_game_ok envS stFresh MIN_BET le_rfl (by decide) (by decide)]
  simp [stFresh, stEmpty]

/-- C2 (amended): after a successful `NewGame(bet)` the state holds a
fresh card seeded with the new game id, prize pool = bet, `DrawnNumbers`
empty, `PendingPrizeFlag` false, total-games and session `op_count`
incremented — but the roll history log is left unchanged, not cleared. -/
theorem new_game_postconditions (env : Env) (s : FlashportState) (bet : Nat)
    (sess : GameSession)
    (hs : s.active_session = some sess)
    (h1 : MIN_BET ≤ bet) (h2 : bet ≤ MAX_BET) (h3 : bet ≤ s.player_balance) :
    ∃ (card : BingoCard) (s' : FlashportState),
      new_game env s bet = (.GameStarted (s.game_counter + 1) card bet bet, s') ∧
      card = { generateCardFromSeed (s.game_counter + 1)
                 (create_seed env (s.game_counter + 1) (s.game_counter + 1)) with
               bet_amount_atto := bet } ∧
      s'.current_card = some card ∧
      s'.current_prize_pool = bet ∧
      s'.drawn_numbers = [] ∧
      s'.has_unclaimed_prize = false ∧
      s'.roll_history = s.roll_history ∧
      s'.total_games = s.total_games + 1 ∧
      s'.game_counter = s.game_counter + 1 ∧
      s'.active_session =
        some { sess with operations_count := sess.operations_count + 1 } := by
  rw [new_game_ok env s bet h1 h2 h3]
  dsimp only []
  refine ⟨_, _, rfl, rfl, ?_, ?_, ?_, ?_, ?_, ?_, ?_, ?_⟩
  · simp
  · simp
  · simp
  · simp
  · simp
  · simp
  · simp
  · simp [bumpSession_active_session, hs]

/-- C2 witness: a concrete successful `NewGame` leaves the (non-empty)
history unchanged and escrows the bet as the prize pool. -/
theorem new_game_postconditions_witness :
    (new_game envS stFresh MIN_BET).2.roll_history = stFresh.roll_history ∧
    (new_game envS stFresh MIN_BET).2.current_prize_pool = MIN_BET := by
  obtain ⟨card, s', heq, _, _, hpool, _, _, hhist, _⟩ :=
    new_game_postconditions envS stFresh MIN_BET sessS rfl le_rfl (by decide) (by decide)
  rw [heq]
  exact ⟨hhist, hpool⟩

/-- C4 counterexample: the dice generator does NOT apply the
splitmix64-style finalizer to its seed (that finalizer exists only in
`create_seed` for card generation); at a concrete input the dice produced
by the code differ from the dice that the claim's algorithm (mix plus
finalizer, then xorshift draws) would produce. -/
theorem dice_seed_finalizer_cx :
    generate_dice_roll envS stEmpty 0 ≠ diceSpecClaimed envS 0 0 0 := by decide

/-- C4 (amended): the dice generator seeds one 64-bit state by the
multiply-add combination of (height, timestamp, roll index, game counter,
total games) — with no finalizer — then draws 4 dice in order from the
single evolving xorshift64 state, each die being `state % 6 + 1`;
identical input tuples always yield identical dice. -/
theorem dice_generator_spec (env : Env) (s : FlashportState) (nonce : Nat) :
    generate_dice_roll env s nonce =
      diceSpecAmended env s.game_counter s.total_games nonce ∧
    (∀ (env2 : Env) (s2 : FlashportState) (nonce2 : Nat),
      env2 = env → s2.game_counter = s.game_counter →
      s2.total_games = s.total_games → nonce2 = nonce →
      generate_dice_roll env2 s2 nonce2 = generate_dice_roll env s nonce) := by
  constructor
  · rfl
  · intro env2 s2 nonce2 he hg ht hn
    subst he
    subst hn
    unfold generate_dice_roll
    rw [hg, ht]

/-- C4 witness: two states agreeing on the seeding tuple produce the same
dice, and the code's dice match the amended description at a concrete
input. -/
theorem dice_generator_spec_witness :
    generate_dice_roll envS stEmpty 0 = diceSpecAmended envS 0 0 0 ∧
    generate_dice_roll envS { stEmpty with drawn_numbers := [9] } 0 =
      generate_dice_roll envS stEmpty 0 :=
  ⟨(dice_generator_spec envS stEmpty 0).1,
   (dice_generator_spec envS stEmpty 0).2 envS { stEmpty with drawn_numbers := [9] } 0
     rfl rfl rfl rfl⟩

/-- C5: the bingo detector returns the first completed pattern in the
fixed priority order rows 0-4, columns 0-4, main diagonal, anti-diagonal,
full card; it returns `none` exactly when no pattern is complete; and for
a grid with both row 0 and column 0 complete it returns `Row0`. -/
theorem detector_first_match (card : BingoCard) :
    check_bingo_on_card card = priorityOrder.find? (patternComplete card.marked) ∧
    (check_bingo_on_card card = none ↔
      ∀ b, patternComplete card.marked b = false) ∧
    (rowComplete card.marked 0 = true → colComplete card.marked 0 = true →
      check_bingo_on_card card = some .Row0) := by
  obtain ⟨e1, e2, e3, e4, e5, e6, e7, e8, e9, e10, e11, e12, e13⟩ :=
    patternComplete_eqs card.marked
  have hmain : check_bingo_on_card card =
      priorityOrder.find? (patternComplete card.marked) := by
    unfold check_bingo_on_card
    simp only [priorityOrder, find?_cons_ite, List.find?_nil,
      e1, e2, e3, e4, e5, e6, e7, e8, e9, e10, e11, e12, e13]
  refine ⟨hmain, ?_, ?_⟩
  · rw [hmain, List.find?_eq_none]
    constructor
    · intro h b
      have hb : b ∈ priorityOrder := by cases b <;> simp [priorityOrder]
      simpa using h b hb
    · intro h x hx
      simp [h x]
  · intro h0 hcol
    unfold check_bingo_on_card
    rw [if_pos h0]

/-- C5 witness: a concrete grid with both row 0 and column 0 complete is
reported as `Row0`, never `Col0`. -/
theorem detector_first_match_witness :
    check_bingo_on_card cardRowCol = some .Row0 :=
  (detector_first_match cardRowCol).2.2 (by decide) (by decide)

/-- C9: folding roll-history updates keeps at most 50 records — exactly
the most recent ones in order, oldest evicted first; after 60 rolls the
length is exactly 50; and every `roll_and_match` either leaves the
history unchanged (failure) or performs exactly one such update. -/
theorem history_bound_spec :
    (∀ (h : List RollRecord) (rs : List RollRecord), h.length ≤ 50 →
      rs.foldl histStep h = (h ++ rs).drop (h.length + rs.length - 50) ∧
      (rs.foldl histStep h).length = min (h.length + rs.length) 50) ∧
    (∀ rs : List RollRecord, rs.length = 60 →
      rs.foldl histStep [] = rs.drop 10 ∧ (rs.foldl histStep []).length = 50) ∧
    (∀ (env : Env) (s : FlashportState) (r : OperationResponse)
      (s' : FlashportState), roll_and_match env s = (r, s') →
      s'.roll_history = s.roll_history ∨
      ∃ rec, s'.roll_history = histStep s.roll_history rec) := by
  refine ⟨?_, ?_, ?_⟩
  · intro h rs hle
    refine ⟨foldl_histStep_eq rs h hle, ?_⟩
    rw [foldl_histStep_eq rs h hle]
    simp
    omega
  · intro rs h60
    constructor
    · have h1 := foldl_histStep_eq rs [] (by simp)
      simpa [h60] using h1
    · rw [foldl_histStep_eq rs [] (by simp)]
      simp [h60]
  · intro env s r s' heq
    cases hcard : s.current_card with
    | none =>
        rw [roll_and_match_no_card env s hcard] at heq
        injection heq with _ h2
        subst h2
        left
        rfl
    | some card =>
        by_cases hpc : card.prize_claimed = true
        · rw [roll_and_match_claimed env s card hcard hpc] at heq
          injection heq with _ h2
          subst h2
          left
          rfl
        · by_cases hup : s.has_unclaimed_prize = true
          · rw [roll_and_match_pending env s card hcard (by simpa using hpc) hup] at heq
            injection heq with _ h2
            subst h2
            left
            rfl
          · by_cases hbal : s.player_balance < ROLL_COST
            · rw [roll_and_match_fee_fail env s card hcard (by simpa using hpc)
                (by simpa using hup) hbal] at heq
              injection heq with _ h2
              subst h2
              left
              rfl
            · rw [roll_and_match_ok env s card hcard (by simpa using hpc)
                (by simpa using hup) (by omega)] at heq
              injection heq with _ h2
              subst h2
              right
              exact ⟨_, by simp; split <;> rfl⟩

/-- C6: for every seed (and game id), the generated card has the FREE
sentinel 0 at the centre cell 12 with `marked[12] = true`; every one of
the other 24 cells holds a value in [4,24]; and at least 3 values repeat
among those 24 cells — cells 22/23/24 duplicate cells 0/1/2 (the
wraparound of the 21-value pool), and those three values are pairwise
distinct. -/
theorem card_invariant (gid seed : Nat) :
    (generateCardFromSeed gid seed).numbers.getD 12 0 = 0 ∧
    (generateCardFromSeed gid seed).marked.getD 12 false = true ∧
    (∀ i, i < 25 → i ≠ 12 →
      4 ≤ (generateCardFromSeed gid seed).numbers.getD i 0 ∧
      (generateCardFromSeed gid seed).numbers.getD i 0 ≤ 24) ∧
    ((generateCardFromSeed gid seed).numbers.getD 22 0 =
      (generateCardFromSeed gid seed).numbers.getD 0 0 ∧
     (generateCardFromSeed gid seed).numbers.getD 23 0 =
      (generateCardFromSeed gid seed).numbers.getD 1 0 ∧
     (generateCardFromSeed gid seed).numbers.getD 24 0 =
      (generateCardFromSeed gid seed).numbers.getD 2 0) ∧
    ((generateCardFromSeed gid seed).numbers.getD 0 0 ≠
      (generateCardFromSeed gid seed).numbers.getD 1 0 ∧
     (generateCardFromSeed gid seed).numbers.getD 0 0 ≠
      (generateCardFromSeed gid seed).numbers.getD 2 0 ∧
     (generateCardFromSeed gid seed).numbers.getD 1 0 ≠
      (generateCardFromSeed gid seed).numbers.getD 2 0) := by
  have hlen : (shuffleAux 20 seed initialPool).2.length = 21 := by
    rw [shuffleAux_length, initialPool_length]
  have hnd : (shuffleAux 20 seed initialPool).2.Nodup :=
    shuffleAux_nodup 20 seed initialPool (by rw [initialPool_length]; omega)
      initialPool_nodup
  have hmem : ∀ x ∈ (shuffleAux 20 seed initialPool).2, 4 ≤ x ∧ x ≤ 24 :=
    fun x hx => initialPool_mem
      (shuffleAux_mem 20 seed initialPool x (by rw [initialPool_length]; omega) hx)
  obtain ⟨pool, hpooldef⟩ : ∃ p : List Nat, p = (shuffleAux 20 seed initialPool).2 :=
    ⟨_, rfl⟩
  rw [← hpooldef] at hlen hnd hmem
  have hbound : ∀ k, k < 21 → 4 ≤ pool.getD k 0 ∧ pool.getD k 0 ≤ 24 := by
    intro k hk
    have hk2 : k < pool.length := by rw [hlen]; exact hk
    rw [getD_eq_getElem' pool k hk2]
    exact hmem _ (List.getElem_mem hk2)
  have hpair := nodup_iff_pairs.mp hnd
  have hnum : (generateCardFromSeed gid seed).numbers =
      [pool.getD 0 0, pool.getD 1 0, pool.getD 2 0, pool.getD 3 0, pool.getD 4 0,
       pool.getD 5 0, pool.getD 6 0, pool.getD 7 0, pool.getD 8 0, pool.getD 9 0,
       pool.getD 10 0, pool.getD 11 0, 0, pool.getD 12 0, pool.getD 13 0,
       pool.getD 14 0, pool.getD 15 0, pool.getD 16 0, pool.getD 17 0,
       pool.getD 18 0, pool.getD 19 0, pool.getD 20 0, pool.getD 0 0,
       pool.getD 1 0, pool.getD 2 0] := by
    unfold generateCardFromSeed
    dsimp only []
    rw [← hpooldef, fillCells_eq pool hlen]
  have hmarked : (generateCardFromSeed gid seed).marked =
      [false, false, false, false, false, false, false, false, false, false,
       false, false, true, false, false, false, false, false, false, false,
       false, false, false, false, false] := by
    unfold generateCardFromSeed
    dsimp only []
    rw [← hpooldef, fillCells_eq pool hlen]
  have hd01 : pool.getD 0 0 ≠ pool.getD 1 0 := by
    rw [getD_eq_getElem' pool 0 (by rw [hlen]; omega),
      getD_eq_getElem' pool 1 (by rw [hlen]; omega)]
    exact hpair 0 1 (by rw [hlen]; omega) (by rw [hlen]; omega) (by omega)
  have hd02 : pool.getD 0 0 ≠ pool.getD 2 0 := by
    rw [getD_eq_getElem' pool 0 (by rw [hlen]; omega),
      getD_eq_getElem' pool 2 (by rw [hlen]; omega)]
    exact hpair 0 2 (by rw [hlen]; omega) (by rw [hlen]; omega) (by omega)
  have hd12 : pool.getD 1 0 ≠ pool.getD 2 0 := by
    rw [getD_eq_getElem' pool 1 (by rw [hlen]; omega),
      getD_eq_getElem' pool 2 (by rw [hlen]; omega)]
    exact hpair 1 2 (by rw [hlen]; omega) (by rw [hlen]; omega) (by omega)
  refine ⟨?_, ?_, ?_, ⟨?_, ?_, ?_⟩, ⟨?_, ?_, ?_⟩⟩
  · rw [hnum]
    rfl
  · rw [hmarked]
    rfl
  · intro i h1 h2
    rw [hnum]
    interval_cases i <;> first | omega | exact hbound _ (by omega)
  · rw [hnum]
    rfl
  · rw [hnum]
    rfl
  · rw [hnum]
    rfl
  · rw [hnum]
    exact hd01
  · rw [hnum]
    exact hd02
  · rw [hnum]
    exact hd12

/-- C6 witness: concrete cells of a concretely generated card are in
range. -/
theorem card_invariant_witness :
    4 ≤ (generateCardFromSeed 1 7).numbers.getD 0 0 ∧
    (generateCardFromSeed 1 7).numbers.getD 0 0 ≤ 24 :=
  (card_invariant 1 7).2.2.1 0 (by decide) (by decide)

/-- C9 witness: a single update from an empty history keeps the record. -/
theorem history_bound_spec_witness :
    [recS].foldl histStep [] =
      (([] : List RollRecord) ++ [recS]).drop
        (([] : List RollRecord).length + [recS].length - 50) ∧
    ([recS].foldl histStep []).length =
      min (([] : List RollRecord).length + [recS].length) 50 :=
  history_bound_spec.1 [] [recS] (by decide)

end Flashport
